import Mathlib

/-!
Verification of the `minijinja` DuckDB extension header
(`src/include/minijinja_extension.hpp`).

The repository ships a single declaration-only header.  We embed the header
syntactically (its lines, its preprocessor define directive, and the class
declaration with the exact member signatures), and we model the behaviour of
the three declared member functions from the specification, since their
implementations are not part of the provided source.
-/

namespace Minijinja

/-- The C++ types that appear in the header's member signatures. -/
inductive CppType where
  | void
  | stdString
  | extensionLoaderRef
  deriving DecidableEq

/-- A member-function declaration of a C++ class, as written in the header:
its name, parameter types, return type, and the `const` / `override`
specifiers. -/
structure MemberDecl where
  name : String
  params : List CppType
  ret : CppType
  isConst : Bool
  isOverride : Bool
  deriving DecidableEq

/-- A C++ class declaration: its name, its (single public) base class if any,
its public member functions, and its data members (fields). -/
structure ClassDecl where
  name : String
  publicBase : Option String
  publicMembers : List MemberDecl
  dataMembers : List String
  deriving DecidableEq

/-- A C++ header file, as a syntactic object: its text lines, its
`define` directives (name, replacement string literal), and the interface
declarations it contains, split by kind. -/
structure HeaderFile where
  lines : List String
  defineDirectives : List (String × String)
  classes : List ClassDecl
  structDecls : List String
  enumDecls : List String
  aliasDecls : List String
  freeFunDecls : List String
  deriving DecidableEq

/-- The string literal that the directive
`define MINIJINJA_EXTENSION_VERSION "2025101901"` (line 8 of the header)
expands to. -/
def MINIJINJA_EXTENSION_VERSION : String := "2025101901"

/-- Line 12 of the header: `void Load(ExtensionLoader &db) override;`. -/
def loadDecl : MemberDecl :=
  { name := "Load"
    params := [CppType.extensionLoaderRef]
    ret := CppType.void
    isConst := false
    isOverride := true }

/-- Line 13 of the header: `std::string Name() override;`. -/
def nameDecl : MemberDecl :=
  { name := "Name"
    params := []
    ret := CppType.stdString
    isConst := false
    isOverride := true }

/-- Line 14 of the header: `std::string Version() const override;`. -/
def versionDecl : MemberDecl :=
  { name := "Version"
    params := []
    ret := CppType.stdString
    isConst := true
    isOverride := true }

/-- Lines 10 to 15 of the header: the class `MinijinjaExtension`, publicly
derived from the host-defined `Extension` base class, with three public
member functions and no data members. -/
def minijinjaExtClass : ClassDecl :=
  { name := "MinijinjaExtension"
    publicBase := some "Extension"
    publicMembers := [loadDecl, nameDecl, versionDecl]
    dataMembers := [] }

/-- The file `src/include/minijinja_extension.hpp`, embedded syntactically.
Its 17 text lines are transcribed verbatim (the last line carries no
terminating newline in the file).  The only define directive is the version
directive; the only interface declaration is the `MinijinjaExtension` class. -/
def minijinjaExtensionHpp : HeaderFile :=
  { lines :=
      [ "\x23pragma once"
      , ""
      , "\x23include \"duckdb.hpp\""
      , ""
      , "namespace duckdb \x7b"
      , ""
      , "// Extension version - update this single location when releasing new versions"
      , "\x23define MINIJINJA_EXTENSION_VERSION \"2025101901\""
      , ""
      , "class MinijinjaExtension : public Extension \x7b"
      , "public:"
      , "\tvoid Load(ExtensionLoader &db) override;"
      , "\tstd::string Name() override;"
      , "\tstd::string Version() const override;"
      , "\x7d;"
      , ""
      , "\x7d // namespace duckdb" ]
    defineDirectives := [("MINIJINJA_EXTENSION_VERSION", MINIJINJA_EXTENSION_VERSION)]
    classes := [minijinjaExtClass]
    structDecls := []
    enumDecls := []
    aliasDecls := []
    freeFunDecls := [] }

/-- Modelled from the spec: the host-provided `ExtensionLoader` registration
context, reduced to the list of names registered into it.  Its definition is
host code, not part of the provided source. -/
structure ExtensionLoader where
  registered : List String
  deriving DecidableEq

/-- Modelled from the spec: the implementation of `MinijinjaExtension::Name`
is not part of the provided source (only its declaration on line 13 is).
The spec describes it as an operation returning the extension's stable
identifying name, pure and without side effects; we model it as a
state-passing function, over any notion of observable state, that returns
the constant name and the unchanged state. -/
def MinijinjaExtension.Name {σ : Type} (s : σ) : String × σ :=
  ("minijinja", s)

/-- Modelled from the spec: the implementation of
`MinijinjaExtension::Version` is not part of the provided source (only its
declaration on line 14 is).  The spec says it returns the string defined by
the version directive, sourced from that compile-time constant alone; it is
declared `const`, so it leaves the state unchanged. -/
def MinijinjaExtension.Version {σ : Type} (s : σ) : String × σ :=
  (MINIJINJA_EXTENSION_VERSION, s)

/-- Modelled from the spec: the implementation of `MinijinjaExtension::Load`
is not part of the provided source (only its declaration on line 12 is).
The spec describes it as performing one-time registration of the extension's
functionality into the provided loader context; it is declared `void`, so
the only outcome it communicates is the updated loader context (failure
semantics are owned by the host). -/
def MinijinjaExtension.Load (db : ExtensionLoader) : ExtensionLoader :=
  { registered := "minijinja" :: db.registered }

/-- Does the token occur as a contiguous run inside the character list? -/
def hasInfix (tok : List Char) : List Char → Bool
  | [] => tok.isEmpty
  | c :: cs => tok.isPrefixOf (c :: cs) || hasInfix tok cs

/-- Substring occurrence test used for the syntactic concurrency scan:
`tok` occurs in `line` iff its characters appear contiguously in `line`. -/
def occursIn (tok line : String) : Bool :=
  hasInfix tok.data line.data

/-- Tokens whose presence in a C++ declaration would signal concurrency,
synchronization, suspension, ordering, or cancellation constructs. -/
def concurrencyTokens : List String :=
  ["thread", "mutex", "atomic", "async", "await", "future",
   "condition_variable", "lock", "semaphore", "barrier", "latch",
   "stop_token", "volatile"]

end Minijinja

open Minijinja

/-- Claim C1: `Version()` returns exactly the string that the compile-time
directive `MINIJINJA_EXTENSION_VERSION` defines, with no other source of the
value: on every state it yields that constant (leaving the state unchanged),
and the header's sole define directive binds that name to that constant. -/
theorem C1_version_returns_version_directive :
    (∀ (σ : Type) (s : σ),
        MinijinjaExtension.Version s = (MINIJINJA_EXTENSION_VERSION, s)) ∧
    minijinjaExtensionHpp.defineDirectives =
      [("MINIJINJA_EXTENSION_VERSION", MINIJINJA_EXTENSION_VERSION)] :=
  ⟨fun _ _ => rfl, rfl⟩

/-- Claim C2: `Name()` returns a non-empty string, and the returned string is
stable: every call, on any object in any state, returns the same value. -/
theorem C2_name_nonempty_and_stable :
    (∀ (σ : Type) (s : σ), (MinijinjaExtension.Name s).1 ≠ "") ∧
    (∀ (σ τ : Type) (s : σ) (t : τ),
        (MinijinjaExtension.Name s).1 = (MinijinjaExtension.Name t).1) := by
  refine ⟨fun σ s => ?_, fun _ _ _ _ => rfl⟩
  show ("minijinja" : String) ≠ ""
  decide

/-- Claim C3: `Name()` is pure with no side effects: it leaves any observable
state unchanged, and running it twice from the same state returns equal
results. -/
theorem C3_name_pure_no_side_effects :
    ∀ (σ : Type) (s : σ),
      (MinijinjaExtension.Name s).2 = s ∧
      MinijinjaExtension.Name ((MinijinjaExtension.Name s).2) =
        MinijinjaExtension.Name s :=
  fun _ _ => ⟨rfl, rfl⟩

/-- Claim C4: `Load` is declared with return type `void`, so it returns no
value through which a failure could be reported (failure is surfaced by the
host), and as modelled it performs one registration of the extension's
functionality into the loader context passed to it. -/
theorem C4_load_void_one_time_registration :
    loadDecl.ret = CppType.void ∧
    loadDecl ∈ minijinjaExtClass.publicMembers ∧
    (∀ db : ExtensionLoader,
        (MinijinjaExtension.Load db).registered = "minijinja" :: db.registered) :=
  ⟨rfl, by decide, fun _ => rfl⟩

/-- Claim C5: the class `MinijinjaExtension` declares exactly the three
virtual overrides `Load`, `Name`, `Version`, each carrying the `override`
specifier against the host-defined `Extension` public base; the file defines
exactly one version-string directive; and the class declares no other members
and the file no other interface declarations. -/
theorem C5_exactly_three_overrides_one_directive :
    minijinjaExtensionHpp.classes = [minijinjaExtClass] ∧
    minijinjaExtClass.publicMembers.map MemberDecl.name = ["Load", "Name", "Version"] ∧
    (∀ m ∈ minijinjaExtClass.publicMembers, m.isOverride = true) ∧
    minijinjaExtClass.publicBase = some "Extension" ∧
    minijinjaExtensionHpp.defineDirectives.length = 1 ∧
    minijinjaExtClass.dataMembers = [] ∧
    minijinjaExtensionHpp.structDecls = [] ∧
    minijinjaExtensionHpp.enumDecls = [] ∧
    minijinjaExtensionHpp.aliasDecls = [] ∧
    minijinjaExtensionHpp.freeFunDecls = [] := by
  refine ⟨rfl, rfl, ?_, rfl, rfl, rfl, rfl, rfl, rfl, rfl⟩
  decide

/-- Claim C6: the provided source is a single header file of exactly 17 text
lines, and its sole interface declaration is the class `MinijinjaExtension`. -/
theorem C6_seventeen_lines_single_class :
    minijinjaExtensionHpp.lines.length = 17 ∧
    minijinjaExtensionHpp.classes.map ClassDecl.name = ["MinijinjaExtension"] ∧
    minijinjaExtensionHpp.structDecls = [] ∧
    minijinjaExtensionHpp.enumDecls = [] ∧
    minijinjaExtensionHpp.aliasDecls = [] ∧
    minijinjaExtensionHpp.freeFunDecls = [] :=
  ⟨rfl, rfl, rfl, rfl, rfl, rfl⟩

/-- Claim C7: the header defines no data structures (no structs, enums,
aliases, or fields) other than the `MinijinjaExtension` class itself, which
depends only on the host-defined `Extension` base type. -/
theorem C7_no_other_data_structures :
    minijinjaExtensionHpp.structDecls = [] ∧
    minijinjaExtensionHpp.enumDecls = [] ∧
    minijinjaExtensionHpp.aliasDecls = [] ∧
    minijinjaExtensionHpp.classes = [minijinjaExtClass] ∧
    minijinjaExtClass.dataMembers = [] ∧
    minijinjaExtClass.publicBase = some "Extension" :=
  ⟨rfl, rfl, rfl, rfl, rfl, rfl⟩

/-- Claim C8: no concurrency, suspension, synchronization, ordering, or
cancellation construct appears anywhere in the header, the declared interface
is exactly the three member functions, and each is modelled here by a
sequential state-passing function (the two string-returning ones preserve the
state outright). -/
theorem C8_no_concurrency_sequential_model :
    (minijinjaExtensionHpp.lines.all (fun l =>
        concurrencyTokens.all (fun t => !(occursIn t l))) = true) ∧
    minijinjaExtClass.publicMembers.map MemberDecl.name = ["Load", "Name", "Version"] ∧
    (∀ (σ : Type) (s : σ),
        (MinijinjaExtension.Name s).2 = s ∧ (MinijinjaExtension.Version s).2 = s) := by
  refine ⟨by decide, rfl, fun _ _ => ⟨rfl, rfl⟩⟩

/-- Claim C9: the directive `MINIJINJA_EXTENSION_VERSION` is defined as the
literal string "2025101901", so `Version()` returns exactly "2025101901". -/
theorem C9_version_value_2025101901 :
    minijinjaExtensionHpp.defineDirectives =
      [("MINIJINJA_EXTENSION_VERSION", "2025101901")] ∧
    (∀ (σ : Type) (s : σ), (MinijinjaExtension.Version s).1 = "2025101901") :=
  ⟨rfl, fun _ _ => rfl⟩

/-- Claim C10: `Version()` is declared `const`, so it leaves the object's
state unchanged, while the declarations of `Name()` and `Load()` carry no
`const` specifier. -/
theorem C10_only_version_is_const :
    versionDecl.isConst = true ∧
    nameDecl.isConst = false ∧
    loadDecl.isConst = false ∧
    (∀ (σ : Type) (s : σ), (MinijinjaExtension.Version s).2 = s) :=
  ⟨rfl, rfl, rfl, fun _ _ => rfl⟩
